import Mathlib

/-!
CalProcess — verification of the EZO probe command/response protocol layer

A shallow embedding, in Lean 4, of the protocol-layer logic of the
ErmiasKetos/CalProcess repository: command framing over the serial
transport, device discovery parsing, calibration-point generation,
pH slope interpretation, reading parsing, the readings log, and the
I2C protocol-switch helper.  Each definition mirrors one Python
function of the repository; theorems settle the specified properties
of those functions.

Python strings are modelled as Lean `String` (lists of characters);
Python `float` values arising from short decimal literals are modelled
as exact rationals `ℚ`; fallible Python code (raised exceptions) is
modelled with `Option`.
-/

namespace CalProcess

/-! ## Python string primitives

Helpers mirroring the Python `str` methods used by the repository:
`strip`, `split(sep)`, `split()` (whitespace), `int(...)`, `float(...)`,
`str.isdigit`, `replace(c, "")`, and the substring test `in`.
-/

/-- Python `str.strip()`: drop leading and trailing whitespace. -/
def pyStrip (l : List Char) : List Char :=
  ((l.dropWhile Char.isWhitespace).reverse.dropWhile Char.isWhitespace).reverse

/-- Python `str.split(sep)` for a one-character separator: keeps empty
pieces, always returns at least one piece. -/
def splitOnChar (sep : Char) : List Char → List (List Char)
  | [] => [[]]
  | c :: rest =>
    let r := splitOnChar sep rest
    if c = sep then [] :: r
    else
      match r with
      | [] => [[c]]
      | h :: t => (c :: h) :: t

/-- Python `str.split()` with no argument: split on whitespace runs,
dropping empty pieces. -/
def pySplitWS (l : List Char) : List (List Char) :=
  (go l).filter (· ≠ [])
where go (l : List Char) : List (List Char) :=
  match l with
  | [] => [[]]
  | c :: rest =>
    let r := go rest
    if Char.isWhitespace c then [] :: r
    else
      match r with
      | [] => [[c]]
      | h :: t => (c :: h) :: t

/-- Python `str.split(sep, 1)` restricted to finding the separator:
split at the first occurrence of `sep`, `none` when `sep` is absent. -/
def splitOnce (sep : Char) : List Char → Option (List Char × List Char)
  | [] => none
  | c :: rest =>
    if c = sep then some ([], rest)
    else (splitOnce sep rest).map (fun p => (c :: p.1, p.2))

/-- Value of a digit string, most significant first. -/
def digitsToNat (l : List Char) : Nat :=
  l.foldl (fun n c => 10 * n + (c.toNat - 48)) 0

/-- All characters are ASCII digits. -/
def allDigits (l : List Char) : Bool :=
  l.all Char.isDigit

/-- Python `int(s)`: strip whitespace, optional sign, then a nonempty
digit string (digit-group underscores are not modelled); raises
`ValueError` otherwise, modelled as `none`. -/
def pyInt (s : String) : Option Int :=
  let t := pyStrip s.data
  match t with
  | '+' :: rest => if rest ≠ [] ∧ allDigits rest then some (digitsToNat rest) else none
  | '-' :: rest => if rest ≠ [] ∧ allDigits rest then some (-(digitsToNat rest : Int)) else none
  | _ => if t ≠ [] ∧ allDigits t then some (digitsToNat t) else none

/-- A mantissa with its sign, as an integer. -/
def signedMantissa (neg : Bool) (n : Nat) : Int :=
  if neg then -(n : Int) else (n : Int)

/-- Python `float(s)` on plain decimal literals (optional sign, digits,
optional single point; exponent, `inf` and `nan` forms are not used by
the repository's inputs): the exact rational value, or `none` when the
call raises `ValueError`. -/
def pyFloat (s : String) : Option ℚ :=
  let t := pyStrip s.data
  let signed : Bool × List Char :=
    match t with
    | '-' :: rest => (true, rest)
    | '+' :: rest => (false, rest)
    | _ => (false, t)
  match splitOnChar '.' signed.2 with
  | [ip] =>
    if ip ≠ [] ∧ allDigits ip then
      some (mkRat (signedMantissa signed.1 (digitsToNat ip)) 1)
    else none
  | [ip, fp] =>
    if (ip ++ fp) ≠ [] ∧ allDigits ip ∧ allDigits fp then
      some (mkRat (signedMantissa signed.1 (digitsToNat (ip ++ fp))) (10 ^ fp.length))
    else none
  | _ => none

/-- Python `str.isdigit()` (ASCII input): nonempty and all digits. -/
def pyIsdigit (s : String) : Bool :=
  s.data ≠ [] && allDigits s.data

/-- Python `s.replace(c, "")` for a one-character pattern: remove every
occurrence of the character. -/
def pyRemoveChar (c : Char) (s : String) : String :=
  String.mk (s.data.filter (· ≠ c))

/-- Whether `p` occurs at the start of `l`. -/
def startsWithSeq : List Char → List Char → Bool
  | [], _ => true
  | _ :: _, [] => false
  | p :: ps, c :: cs => p = c && startsWithSeq ps cs

/-- Whether `p` occurs contiguously anywhere in `l`:
Python's substring test `p in l`. -/
def containsSeq (p : List Char) : List Char → Bool
  | [] => startsWithSeq p []
  | c :: cs => startsWithSeq p (c :: cs) || containsSeq p cs

/-- Python `needle in hay` on strings. -/
def pyInStr (needle hay : String) : Bool :=
  containsSeq needle.data hay.data

end CalProcess

namespace CalProcess

/-! ## The command/response layer

Each `send` embedding is a function of the state of the serial stream at
the moment of the call:

* `stale` — the decoded lines already sitting unread in the input buffer
  (produced by earlier, unrelated commands);
* `resp` — the lines the device produces in response to this command by
  the end of the settle delay;
* `fail` — whether a transport-level exception is raised during the send;
* `connected` — whether the connection object exists and is open (for
  the variants that check it).

After the command is written and the settle delay elapses, the input
buffer holds `stale ++ resp` unless the implementation flushed it first.
`readline` takes the first buffered line; `readlines` (and the
`while in_waiting` drain loop) takes them all.
-/

/-- Embedding of `send_command` of `src/probes.py` (lines 12–20): write
`command + "\r"`, sleep 0.5 s, `readlines()` — all buffered lines, the
stale ones included (no flush).  On an exception an error message is
displayed and `[]` is returned.  The second component records whether
the error message was displayed. -/
def probesSendCommand (stale resp : List String) (fail : Bool)
    (command : String) : List String × Bool :=
  let _ := command
  if fail then ([], true) else (stale ++ resp, false)

/-- Embedding of `WhiteboxEZOApp.send_command` of `src/app.py` (lines 604–620): when
disconnected, display an error and return `None`; otherwise write
`cmd + "\r"`, sleep 0.3 s, and if bytes are waiting return the first
buffered line (`readline`), else return `None`; on an exception display
an error and return `None`.  The input buffer is not flushed first.
The second component records whether an error message was displayed. -/
def WhiteboxEZOApp.send_command (connected : Bool) (stale resp : List String)
    (fail : Bool) : Option String × Bool :=
  if !connected then (none, true)
  else if fail then (none, true)
  else
    match stale ++ resp with
    | [] => (none, false)
    | l :: _ => (some l, false)

/-- Embedding of `ConnectionHandler.send_command` of `src/connection_handler.py`
(lines 221–240): when the port is absent or closed return `None`;
otherwise `reset_input_buffer()` (discarding the stale lines), write
`command + "\r"`, sleep 0.5 s, drain every buffered line, and return
the first drained line (`response[0] if response else None`); on an
exception log and return `None`. -/
def ConnectionHandler.send_command (connected : Bool) (stale resp : List String)
    (fail : Bool) : Option String :=
  if !connected then none
  else if fail then none
  else
    let _ := stale    -- ser.reset_input_buffer() discards the stale lines
    match resp with
    | [] => none
    | l :: _ => some l

/-- Embedding of `SerialManager.send_command` of `src/utils.py` (lines 55–72): when
not connected, log an error and return `None`; otherwise write
`command + "\r"`, sleep 0.3 s, and if bytes are waiting return the
first buffered line (`readline`), else `None`; on an exception log and
return `None`.  The input buffer is not flushed before the write, so
the first buffered line may be a stale one. -/
def SerialManager.send_command (connected : Bool) (stale resp : List String)
    (fail : Bool) : Option String :=
  if !connected then none
  else if fail then none
  else
    match stale ++ resp with
    | [] => none
    | l :: _ => some l

/-- Embedding of `EZOHandler.send_command` of `src/ezo_components.py` (lines
107–121): write `command + "\r"`, sleep 0.5 s, drain every buffered
line and return the first (`response[0] if response else None`); on an
exception display an error and return `None`.  No flush. -/
def EZOHandler.send_command (stale resp : List String) (fail : Bool) :
    Option String :=
  if fail then none
  else
    match stale ++ resp with
    | [] => none
    | l :: _ => some l

/-- Embedding of `ConnectionHandler.probe_reading` of `src/connection_handler.py`
(lines 242–250): send `"R"`; if the returned line is truthy and
`response.replace('.','').isdigit()`, return `float(response)`;
any exception is swallowed; in every other case return `0.000`. -/
def ConnectionHandler.probe_reading (connected : Bool)
    (stale resp : List String) (fail : Bool) : ℚ :=
  match ConnectionHandler.send_command connected stale resp fail with
  | none => 0
  | some r =>
    if r ≠ "" ∧ pyIsdigit (pyRemoveChar '.' r) then (pyFloat r).getD 0 else 0

/-- Embedding of `EZOHandler.get_reading` of `src/ezo_components.py` (lines
123–131): send `"R"`; if the returned line is truthy and
`response.replace('.','').replace('-','').isdigit()`, return
`float(response)`; any exception is swallowed; in every other case
return `0.000`. -/
def EZOHandler.get_reading (stale resp : List String) (fail : Bool) : ℚ :=
  match EZOHandler.send_command stale resp fail with
  | none => 0
  | some r =>
    if r ≠ "" ∧ pyIsdigit (pyRemoveChar '-' (pyRemoveChar '.' r)) then
      (pyFloat r).getD 0
    else 0

/-! ## Device discovery (`!scan` response parsing) -/

/-- A discovered device record, as built by `scan_devices`. -/
structure Device where
  address : Int
  type : String
  info : String
deriving DecidableEq

/-- One line of the `!scan` response, as processed by the loop body of
`DeviceManager.scan_devices` (`src/utils.py` lines 161–177) and
`WhiteboxEZOApp.scan_devices` (`src/app.py` lines 583–602):

* a line without `':'` is skipped (`some none`);
* otherwise `addr, device_info = line.split(':', 1)`,
  `addr = int(addr.strip())` — a `ValueError` on a non-integer address
  propagates (`none`);
* `device_type = device_info.strip().split()[1]` — an `IndexError`
  when the stripped description has fewer than two words propagates
  (`none`);
* otherwise a record is produced (`some (some d)`). -/
def parseScanLine (line : List Char) : Option (Option Device) :=
  match splitOnce ':' line with
  | none => some none
  | some p => parseScanEntry p.1 p.2
where
  /-- The body of the `':' in line` branch, on the two pieces of
  `line.split(':', 1)`. -/
  parseScanEntry (a b : List Char) : Option (Option Device) :=
    match pyInt (String.mk a) with
    | none => none
    | some addr =>
      match (pySplitWS (pyStrip b)).get? 1 with
      | none => none
      | some ty => some (some ⟨addr, String.mk ty, String.mk (pyStrip b)⟩)

/-- The parsing loop of `scan_devices` over the response lines: records
accumulate in order; a raised exception aborts the whole scan. -/
def scanLines : List String → Option (List Device)
  | [] => some []
  | l :: rest =>
    match parseScanLine l.data with
    | none => none
    | some none => scanLines rest
    | some (some d) => (scanLines rest).map (d :: ·)

/-- Embedding of `DeviceManager.scan_devices` of `src/utils.py` (lines 161–177), on
the response of `send_command("!scan")` (`None` or a string): a falsy
response yields `[]`; otherwise the response is split on `'\n'` and
each line is parsed by the loop body (`parseScanLine`).  `none` models
an uncaught `ValueError`/`IndexError`.  `WhiteboxEZOApp.scan_devices`
(`src/app.py` lines 583–602) runs the identical loop. -/
def DeviceManager.scan_devices (response : Option String) :
    Option (List Device) :=
  match response with
  | none => some []
  | some s =>
    if s = "" then some []
    else scanLines ((splitOnChar '\n' s.data).map String.mk)

/-! ## EC calibration points -/

/-- A calibration point as built by `get_ec_cal_points`. -/
structure CalPoint where
  name : String
  command : String
  solution : String
deriving DecidableEq

/-- Embedding of `WhiteboxEZOApp.get_ec_cal_points` of `src/app.py` (lines 668–688):
the ordered calibration points for the selected K-value (the K-value is
the selectbox string `"0.1"`, `"1.0"` or `"10.0"`; the final branch is
the `else`). -/
def WhiteboxEZOApp.get_ec_cal_points (k_value : String) : List CalPoint :=
  if k_value = "0.1" then
    [⟨"Dry Calibration", "Cal,dry", "Dry probe"⟩,
     ⟨"84 µS/cm", "Cal,84", "84 µS/cm solution"⟩,
     ⟨"1413 µS/cm", "Cal,1413", "1413 µS/cm solution"⟩]
  else if k_value = "1.0" then
    [⟨"Dry Calibration", "Cal,dry", "Dry probe"⟩,
     ⟨"12880 µS/cm", "Cal,12880", "12880 µS/cm solution"⟩,
     ⟨"80000 µS/cm", "Cal,80000", "80000 µS/cm solution"⟩]
  else
    [⟨"Dry Calibration", "Cal,dry", "Dry probe"⟩,
     ⟨"12880 µS/cm", "Cal,12880", "12880 µS/cm solution"⟩,
     ⟨"150000 µS/cm", "Cal,150000", "150000 µS/cm solution"⟩]

/-! ## The readings log -/

/-- One entry of `st.session_state.readings`. -/
structure Reading where
  timestamp : String
  device_type : String
  value : String
deriving DecidableEq

/-- Embedding of `WhiteboxEZOApp.log_reading` of `src/app.py` (lines 627–633):
append one sample dict to `st.session_state.readings`.  The list is a
plain Python list; no capacity bound or eviction appears anywhere. -/
def WhiteboxEZOApp.log_reading (readings : List Reading)
    (ts device_type value : String) : List Reading :=
  readings ++ [⟨ts, device_type, value⟩]

/-- Iterated `log_reading`: record the given samples in order. -/
def logAll (readings : List Reading) (samples : List Reading) : List Reading :=
  samples.foldl
    (fun acc s => WhiteboxEZOApp.log_reading acc s.timestamp s.device_type s.value)
    readings

/-! ## pH slope verification -/

/-- The result displayed by `show_calibration_verification`: the three
parsed values, the per-card status of each (`true` = "good", `false` =
"warning"), and the overall verdict (`true` = the success box, `false`
= the recalibration warning). -/
structure SlopeVerification where
  acid_slope : ℚ
  base_slope : ℚ
  zero_offset : ℚ
  acid_ok : Bool
  base_ok : Bool
  zero_ok : Bool
  valid : Bool
deriving DecidableEq

/-- Embedding of `WhiteboxEZOApp.show_calibration_verification` of `src/app.py`
(lines 784–882), modelled from the source text of its `try` block:
`acid_slope = float(slopes[1])`, `base_slope = float(slopes[2])`,
`zero_offset = float(slopes[3])`; each card is "good" when its value
lies in 95–105 % (slopes) resp. −30…30 mV (offset); the overall
verdict is `all([95 <= acid_slope <= 105, 95 <= base_slope <= 105,
-30 <= zero_offset <= 30])`.  A raised `IndexError`/`ValueError` is
caught by the enclosing `except` and shown as an error message
(`none`), not re-raised.

Note: as committed, lines 846–852 of `src/app.py` are dedented out of
the enclosing `try`, which is a `SyntaxError` at line 847 — the module
cannot even be imported, so this function never runs as written. -/
def WhiteboxEZOApp.show_calibration_verification (slopes : List String) :
    Option SlopeVerification :=
  match slopes.get? 1, slopes.get? 2, slopes.get? 3 with
  | some s1, some s2, some s3 =>
    match pyFloat s1, pyFloat s2, pyFloat s3 with
    | some acid, some base, some zero =>
      let acidOk := decide (95 ≤ acid) && decide (acid ≤ 105)
      let baseOk := decide (95 ≤ base) && decide (base ≤ 105)
      let zeroOk := decide (-30 ≤ zero) && decide (zero ≤ 30)
      some ⟨acid, base, zero, acidOk, baseOk, zeroOk, acidOk && baseOk && zeroOk⟩
    | _, _, _ => none
  | _, _, _ => none

/-- The call site (`src/app.py` lines 357–361): the `Slope,?` response
string is split on `','` and handed to `show_calibration_verification`. -/
def WhiteboxEZOApp.verify_ph_calibration (response : String) :
    Option SlopeVerification :=
  WhiteboxEZOApp.show_calibration_verification
    ((splitOnChar ',' response.data).map String.mk)

/-! ## RTD calibration input -/

/-- The probe-scoped command the RTD calibration flow can emit. -/
inductive RtdCommand where
  | cal (temp : ℚ)
deriving DecidableEq

/-- Embedding of `WhiteboxEZOApp.render_rtd_calibration` of `src/app.py` (lines
439–459) and the RTD branch of `EZOUI.create_calibration_ui` of
`src/ezo_components.py` (lines 256–263): the known temperature is
entered through `st.number_input(..., min_value=-200.0,
max_value=850.0)` — the widget is the local validation and yields a
value only inside that range — and the calibration step then sends
`f"Cal,{temp}"`.  An out-of-range entry never reaches a `write`. -/
def WhiteboxEZOApp.render_rtd_calibration (temp : ℚ) : Option RtdCommand :=
  if decide (-200 ≤ temp) && decide (temp ≤ 850) then
    some (RtdCommand.cal temp)
  else none

/-! ## Protocol switching (`ProtocolManager`) -/

/-- The serial state seen by a `switch_to_i2c` call:
`scanRaw` is the raw buffered text read back by `is_address_in_use`
after it sends `"!scan"`; `i2cResp` is the first buffered line after
the `i2c,<addr>` command is written (`none` when no bytes arrived). -/
structure ProtocolBus where
  scanRaw : String
  i2cResp : Option String
deriving DecidableEq

/-- Embedding of `ProtocolManager.is_address_in_use` of `src/protocol_utils.py`
(lines 129–142): send `"!scan"` (this writes `"!scan\r"` to the
serial connection), read the raw waiting bytes, and test
`str(address) in response` (a plain substring test). -/
def ProtocolManager.is_address_in_use (bus : ProtocolBus) (address : Int) :
    Bool :=
  pyInStr (toString address) bus.scanRaw

/-- Embedding of `ProtocolManager.switch_to_i2c` of `src/protocol_utils.py` (lines
40–73).  The first component is the returned Boolean; the second is
the ordered list of strings written to the serial connection during
the call:

* no connection → `False`, nothing written;
* `not 1 <= new_i2c_address <= 127` → `False`, nothing written;
* `is_address_in_use(new_i2c_address)` → `False`, but the check itself
  has already written `"!scan\r"`;
* otherwise `send_command(f"i2c,{new_i2c_address}")` writes the command
  and `True` is returned iff the response line is truthy and contains
  `"SUCCESS"`. -/
def ProtocolManager.switch_to_i2c (connected : Bool) (bus : ProtocolBus)
    (new_i2c_address : Int) : Bool × List String :=
  if !connected then (false, [])
  else if !(decide (1 ≤ new_i2c_address) && decide (new_i2c_address ≤ 127)) then
    (false, [])
  else if ProtocolManager.is_address_in_use bus new_i2c_address then
    (false, ["!scan\r"])
  else
    let writes := ["!scan\r", "i2c," ++ toString new_i2c_address ++ "\r"]
    match bus.i2cResp with
    | none => (false, writes)
    | some r => ((r ≠ "" && pyInStr "SUCCESS" r), writes)

/-! ## Concurrent sends (transport-level actions)

`send_command` (in every variant of this repository) executes, on the
shared serial handle, the sequence: write the framed command, sleep the
settle delay, read what is available.  To settle the concurrency claim
we embed these calls as sequences of atomic transport actions tagged
with a thread id.  The action vocabulary includes lock operations so
that a mutual-exclusion discipline is expressible; the point of the
embedding is that the source performs none. -/

/-- An atomic transport-level action of thread `tid`. -/
inductive Act where
  | acquire (tid : Nat)
  | release (tid : Nat)
  | write (tid : Nat) (bytes : List Char)
  | sleep (tid : Nat)
  | readAvail (tid : Nat)
deriving DecidableEq

/-- Whether an action is a lock operation. -/
def Act.isLockOp : Act → Bool
  | Act.acquire _ => true
  | Act.release _ => true
  | _ => false

/-- The transport actions performed by one `send_command(cmd)` call
(`WhiteboxEZOApp.send_command`, `src/app.py` lines 604–620, and
`EZOHandler.send_command`, `src/ezo_components.py` lines 107–121):
`ser.write((cmd + "\r").encode())`, `time.sleep(...)`, then the
availability-checked read.  The body contains no lock acquisition or
release. -/
def sendActs (tid : Nat) (cmd : String) : List Act :=
  [Act.write tid (cmd.data ++ ['\r']), Act.sleep tid, Act.readAvail tid]

/-- Relation `Interleave xs ys zs`: `zs` is an order-preserving merge of the
action sequences `xs` and `ys` — one possible schedule of two threads
running them concurrently. -/
inductive Interleave : List Act → List Act → List Act → Prop
  | nil : Interleave [] [] []
  | left {x : Act} {xs ys zs : List Act} :
      Interleave xs ys zs → Interleave (x :: xs) ys (x :: zs)
  | right {y : Act} {xs ys zs : List Act} :
      Interleave xs ys zs → Interleave xs (y :: ys) (y :: zs)

/-- A schedule respects the mutual-exclusion lock: starting from lock
owner `owner`, no thread acquires a lock someone holds, and only the
holder releases it.  A schedule containing no lock operations is
trivially admissible. -/
def lockOk : Option Nat → List Act → Bool
  | _, [] => true
  | owner, a :: rest =>
    match a with
    | Act.acquire t =>
      match owner with
      | none => lockOk (some t) rest
      | some _ => false
    | Act.release t =>
      match owner with
      | some o => if o = t then lockOk none rest else false
      | none => false
    | _ => lockOk owner rest

/-- The two executions serialize: one runs to completion before the
other begins. -/
def Serializes (xs ys zs : List Act) : Prop :=
  zs = xs ++ ys ∨ zs = ys ++ xs

/-! ## Auxiliary definitions used by the theorems -/

/-- A `!scan` response line the parsing loop handles without raising:
either no `':'` (skipped), or an integer first field and a stripped
description of at least two whitespace-separated words. -/
def scanLineOk (line : List Char) : Bool :=
  match splitOnce ':' line with
  | none => true
  | some p =>
    (pyInt (String.mk p.1)).isSome &&
      decide (2 ≤ (pySplitWS (pyStrip p.2)).length)

/-- A schedule of two concurrent `send_command` executions (threads 0
and 1) in which both commands are in flight at once: both writes land
on the stream before either thread reads. -/
def overlappedSchedule : List Act :=
  [Act.write 0 ("R".data ++ ['\r']),
   Act.write 1 ("Cal,mid,7.00".data ++ ['\r']),
   Act.sleep 0, Act.sleep 1,
   Act.readAvail 0, Act.readAvail 1]

/-- A list of 101 reading samples: one distinguished oldest sample followed by
100 identical later ones. -/
def hundredOneSamples : List Reading :=
  ⟨"t0", "pH", "7.01"⟩ :: List.replicate 100 ⟨"t1", "pH", "7.02"⟩

/-! ## Sanity checks for the Python-primitive embeddings -/

theorem pyFloat_example : pyFloat "99.7" = some (mkRat 997 10) := by decide

theorem pyInt_example : pyInt " 99 " = some 99 := by decide

theorem pyInStr_example : pyInStr "100" "100: EZO EC" = true := by decide

/-! ## C4 — EC calibration points by K-value -/

/-- C4: EC calibration point generation is a function of the selected
K-value: K=0.1 yields a dry point then 84 and 1413 µS/cm; K=1.0 a dry
point then 12880 and 80000 µS/cm; K=10.0 a dry point then 12880 and
150000 µS/cm; the commands are `Cal,dry` for the dry point and
`Cal,<value>` for the solution points. -/
theorem ec_cal_points_by_k_value :
    WhiteboxEZOApp.get_ec_cal_points "0.1" =
      [⟨"Dry Calibration", "Cal,dry", "Dry probe"⟩,
       ⟨"84 µS/cm", "Cal,84", "84 µS/cm solution"⟩,
       ⟨"1413 µS/cm", "Cal,1413", "1413 µS/cm solution"⟩]
    ∧ WhiteboxEZOApp.get_ec_cal_points "1.0" =
      [⟨"Dry Calibration", "Cal,dry", "Dry probe"⟩,
       ⟨"12880 µS/cm", "Cal,12880", "12880 µS/cm solution"⟩,
       ⟨"80000 µS/cm", "Cal,80000", "80000 µS/cm solution"⟩]
    ∧ WhiteboxEZOApp.get_ec_cal_points "10.0" =
      [⟨"Dry Calibration", "Cal,dry", "Dry probe"⟩,
       ⟨"12880 µS/cm", "Cal,12880", "12880 µS/cm solution"⟩,
       ⟨"150000 µS/cm", "Cal,150000", "150000 µS/cm solution"⟩]
    ∧ (WhiteboxEZOApp.get_ec_cal_points "0.1").map CalPoint.command =
      ["Cal,dry", "Cal,84", "Cal,1413"]
    ∧ (WhiteboxEZOApp.get_ec_cal_points "1.0").map CalPoint.command =
      ["Cal,dry", "Cal,12880", "Cal,80000"]
    ∧ (WhiteboxEZOApp.get_ec_cal_points "10.0").map CalPoint.command =
      ["Cal,dry", "Cal,12880", "Cal,150000"] := by
  refine ⟨rfl, rfl, rfl, rfl, rfl, rfl⟩

/-! ## C5 — the readings log has no capacity bound -/

/-- Iterating `log_reading` appends the samples in order: nothing is
ever evicted. -/
theorem logAll_append (init samples : List Reading) :
    logAll init samples = init ++ samples := by
  induction samples generalizing init with
  | nil => simp [logAll]
  | cons s rest ih =>
    show logAll
        (WhiteboxEZOApp.log_reading init s.timestamp s.device_type s.value)
        rest = init ++ s :: rest
    rw [WhiteboxEZOApp.log_reading, ih]
    simp

/-- C5 counterexample: with the spec's smallest claimed capacity (100),
appending capacity + 1 = 101 samples through `log_reading` leaves 101
samples in the readings list — not 100 — and the oldest sample is still
present at the front (nothing was evicted). -/
theorem readings_log_exceeds_capacity :
    (logAll [] hundredOneSamples).length = 101
    ∧ (logAll [] hundredOneSamples).length ≠ 100
    ∧ (logAll [] hundredOneSamples).head? = some ⟨"t0", "pH", "7.01"⟩ := by
  refine ⟨?_, ?_, ?_⟩ <;> simp [logAll_append, hundredOneSamples]

/-- C5 (amended): `st.session_state.readings` is an unbounded
append-only list: recording samples through `log_reading` appends them
in order after the existing contents; after recording `n` further
samples the list holds `initial + n` samples, every earlier sample
retained — there is no capacity and no FIFO eviction. -/
theorem readings_log_append_only (init samples : List Reading) :
    logAll init samples = init ++ samples
    ∧ (logAll init samples).length = init.length + samples.length := by
  refine ⟨logAll_append init samples, ?_⟩
  simp [logAll_append]

/-! ## C9 — RTD calibration input range -/

/-- C9: an RTD calibration temperature outside −200…850 °C is rejected
by the local validation (the `number_input` bounds) and no command is
written; an in-range temperature yields the `Cal,<°C>` command. -/
theorem rtd_calibration_range_guard (temp : ℚ) :
    (temp < -200 ∨ 850 < temp →
      WhiteboxEZOApp.render_rtd_calibration temp = none)
    ∧ (-200 ≤ temp → temp ≤ 850 →
      WhiteboxEZOApp.render_rtd_calibration temp = some (RtdCommand.cal temp)) := by
  constructor
  · intro h
    rcases h with h | h
    · simp [WhiteboxEZOApp.render_rtd_calibration,
        decide_eq_false (not_le.mpr h)]
    · simp [WhiteboxEZOApp.render_rtd_calibration,
        decide_eq_false (not_le.mpr h)]
  · intro h1 h2
    simp [WhiteboxEZOApp.render_rtd_calibration,
      decide_eq_true h1, decide_eq_true h2]

/-- C9 witness: 900 °C (the spec's example) is rejected with no command
written; 25 °C yields `Cal,25`. -/
theorem rtd_calibration_range_guard_witness :
    WhiteboxEZOApp.render_rtd_calibration 900 = none
    ∧ WhiteboxEZOApp.render_rtd_calibration 25 = some (RtdCommand.cal 25) :=
  ⟨(rtd_calibration_range_guard 900).1 (Or.inr (by decide)),
   (rtd_calibration_range_guard 25).2 (by decide) (by decide)⟩

/-! ## C6 — zero response lines at settle end -/

/-- C6 counterexample: in `WhiteboxEZOApp.send_command` (one of the two
send implementations the claim covers) a send for which zero bytes are
available at the end of the settle delay does not return an empty list
of response lines: it returns `None`, and that return value is
identical to the one produced by a transport error, so the caller
cannot tell the two outcomes apart. -/
theorem app_send_zero_bytes_returns_none :
    (WhiteboxEZOApp.send_command true [] [] false).1 = none
    ∧ (WhiteboxEZOApp.send_command true [] [] true).1 = none
    ∧ (WhiteboxEZOApp.send_command true [] [] false).1 =
      (WhiteboxEZOApp.send_command true [] [] true).1 := by
  refine ⟨rfl, rfl, rfl⟩

/-- C6 (amended): in `probes.send_command` a send with zero bytes
available at settle end returns the empty list with no error displayed
— a valid outcome, distinguished from the transport-error outcome only
by the displayed error message (the returned list is `[]` in both
cases).  `WhiteboxEZOApp.send_command`, however, returns `None` (not an
empty list) on zero bytes, the same return value as its transport-error
path. -/
theorem zero_byte_send_outcomes (cmd : String) :
    probesSendCommand [] [] false cmd = ([], false)
    ∧ probesSendCommand [] [] true cmd = ([], true)
    ∧ (WhiteboxEZOApp.send_command true [] [] false) = (none, false)
    ∧ (WhiteboxEZOApp.send_command true [] [] true) = (none, true) := by
  refine ⟨rfl, rfl, rfl, rfl⟩

/-! ## C7 — flushing stale input before a send -/

/-- C7 counterexample: `SerialManager.send_command` does not discard
stale unread bytes before writing: with the stale line `"*OK"` (left
over from an earlier command) still buffered, a send whose device
response is `"7.001"` returns the stale line `"*OK"` — a line that is
not part of the device's response to this command. -/
theorem serial_manager_returns_stale_line :
    SerialManager.send_command true ["*OK"] ["7.001"] false = some "*OK"
    ∧ "*OK" ∉ (["7.001"] : List String) := by
  refine ⟨rfl, by decide⟩

/-- C7 (amended): `ConnectionHandler.send_command` resets the input
buffer before writing, so its result is independent of the stale lines
and is always the first line of the device's own response; but
`SerialManager.send_command` (and the app's send) performs no flush, so
whenever a stale line is buffered it is what the send returns. -/
theorem stale_flush_by_variant (stale stale2 resp : List String) (l : String) :
    (∀ fail : Bool,
      ConnectionHandler.send_command true stale resp fail =
        ConnectionHandler.send_command true stale2 resp fail)
    ∧ ConnectionHandler.send_command true stale resp false = resp.head?
    ∧ SerialManager.send_command true (l :: stale) resp false = some l := by
  refine ⟨fun fail => rfl, ?_, rfl⟩
  cases resp <;> rfl

/-! ## C8 — non-numeric reading responses -/

/-- C8 counterexample: a response line that is not a valid number is
not "silently discarded with no value recorded":
`ConnectionHandler.probe_reading` (and `EZOHandler.get_reading`)
returns the sentinel reading `0.000` for it — the same value a genuine
`"0.000"` response produces, so a recorded sample does result. -/
theorem invalid_reading_yields_sentinel :
    ConnectionHandler.probe_reading true [] ["ERR"] false = 0
    ∧ ConnectionHandler.probe_reading true [] ["0.000"] false = 0
    ∧ EZOHandler.get_reading [] ["ERR"] false = 0 := by
  refine ⟨by decide, by decide, by decide⟩

/-- C8 (amended): on an `"R"` command the first response line is parsed
as a floating-point number when it passes the digit check, and that
value is returned; a line failing the check yields the sentinel value
`0.000` instead of being discarded (no exception propagates — the
function is total); only the first response line is ever consulted.
(`EZOHandler.get_reading` additionally strips `'-'` before the check,
so it accepts negative readings.) -/
theorem probe_reading_first_line_or_sentinel (resp : List String)
    (s : String) (q : ℚ) :
    (pyIsdigit (pyRemoveChar '.' s) = false →
      ConnectionHandler.probe_reading true [] [s] false = 0)
    ∧ (s ≠ "" → pyIsdigit (pyRemoveChar '.' s) = true → pyFloat s = some q →
      ConnectionHandler.probe_reading true [] [s] false = q)
    ∧ ConnectionHandler.probe_reading true [] (s :: resp) false =
      ConnectionHandler.probe_reading true [] [s] false
    ∧ (s ≠ "" → pyIsdigit (pyRemoveChar '-' (pyRemoveChar '.' s)) = true →
      pyFloat s = some q → EZOHandler.get_reading [] [s] false = q) := by
  refine ⟨?_, ?_, rfl, ?_⟩
  · intro h
    simp [ConnectionHandler.probe_reading, ConnectionHandler.send_command, h]
  · intro h1 h2 h3
    simp [ConnectionHandler.probe_reading, ConnectionHandler.send_command,
      h1, h2, h3]
  · intro h1 h2 h3
    simp [EZOHandler.get_reading, EZOHandler.send_command, h1, h2, h3]

/-- C8 witness: `"ERR"` fails the digit check and yields the sentinel;
`"12.5"` parses to 12.5 and is returned; `"-1.5"` is accepted by
`EZOHandler.get_reading`. -/
theorem probe_reading_first_line_or_sentinel_witness :
    ConnectionHandler.probe_reading true [] ["ERR"] false = 0
    ∧ ConnectionHandler.probe_reading true [] ["12.5"] false = mkRat 125 10
    ∧ EZOHandler.get_reading [] ["-1.5"] false = mkRat (-15) 10 :=
  ⟨(probe_reading_first_line_or_sentinel [] "ERR" 0).1 (by decide),
   (probe_reading_first_line_or_sentinel [] "12.5" (mkRat 125 10)).2.1
     (by decide) (by decide) (by decide),
   (probe_reading_first_line_or_sentinel [] "-1.5" (mkRat (-15) 10)).2.2.2
     (by decide) (by decide) (by decide)⟩

/-! ## C3 — pH slope parsing and classification -/

/-- C3: the pH slope interpretation of `show_calibration_verification`,
as the source text of its `try` block evidently intends (the committed
file mis-indents lines 846–852 into a `SyntaxError`, see the definition
of `WhiteboxEZOApp.show_calibration_verification`).  Universally: every
4-field comma-separated slope response whose fields 2, 3 and 4 parse as
numbers yields a verification record whose mid (acid) slope, high
(base) slope and zero offset are exactly those three fields, each card
is "good" iff its value is within 95–105 % resp. −30…30 mV, and the
overall verdict is "good" if and only if all three bounds hold — any
violation flags the calibration for attention, not a fatal error
(a parse failure is caught and displayed, `none`).  Concretely, every
violating direction is exercised: mid below/above the band, high
below/above, offset below/above, the inclusive boundary values, the
spec's two examples, and a caught malformed response. -/
theorem slope_verification_classification :
    (∀ response f1 s1 s2 s3 : String, ∀ a b z : ℚ,
      (splitOnChar ',' response.data).map String.mk = [f1, s1, s2, s3] →
      pyFloat s1 = some a → pyFloat s2 = some b → pyFloat s3 = some z →
      ∃ r : SlopeVerification,
        WhiteboxEZOApp.verify_ph_calibration response = some r
        ∧ r.acid_slope = a ∧ r.base_slope = b ∧ r.zero_offset = z
        ∧ (r.acid_ok = true ↔ (95 ≤ a ∧ a ≤ 105))
        ∧ (r.base_ok = true ↔ (95 ≤ b ∧ b ≤ 105))
        ∧ (r.zero_ok = true ↔ (-30 ≤ z ∧ z ≤ 30))
        ∧ (r.valid = true ↔
            ((95 ≤ a ∧ a ≤ 105) ∧ (95 ≤ b ∧ b ≤ 105) ∧ (-30 ≤ z ∧ z ≤ 30))))
    ∧ WhiteboxEZOApp.verify_ph_calibration "Slope,99.7,100.3,-0.89" =
      some ⟨mkRat 997 10, mkRat 1003 10, mkRat (-89) 100,
            true, true, true, true⟩
    ∧ WhiteboxEZOApp.verify_ph_calibration "Slope,80.0,100.3,-0.89" =
      some ⟨mkRat 800 10, mkRat 1003 10, mkRat (-89) 100,
            false, true, true, false⟩
    ∧ WhiteboxEZOApp.verify_ph_calibration "Slope,106.2,100.3,-0.89" =
      some ⟨mkRat 1062 10, mkRat 1003 10, mkRat (-89) 100,
            false, true, true, false⟩
    ∧ WhiteboxEZOApp.verify_ph_calibration "Slope,99.7,93.0,-0.89" =
      some ⟨mkRat 997 10, mkRat 930 10, mkRat (-89) 100,
            true, false, true, false⟩
    ∧ WhiteboxEZOApp.verify_ph_calibration "Slope,99.7,110.5,-0.89" =
      some ⟨mkRat 997 10, mkRat 1105 10, mkRat (-89) 100,
            true, false, true, false⟩
    ∧ WhiteboxEZOApp.verify_ph_calibration "Slope,99.7,100.3,-45.0" =
      some ⟨mkRat 997 10, mkRat 1003 10, mkRat (-450) 10,
            true, true, false, false⟩
    ∧ WhiteboxEZOApp.verify_ph_calibration "Slope,99.7,100.3,31.5" =
      some ⟨mkRat 997 10, mkRat 1003 10, mkRat 315 10,
            true, true, false, false⟩
    ∧ WhiteboxEZOApp.verify_ph_calibration "Slope,95.0,105.0,-30.0" =
      some ⟨mkRat 95 1, mkRat 105 1, mkRat (-30) 1,
            true, true, true, true⟩
    ∧ WhiteboxEZOApp.verify_ph_calibration "garbage" = none := by
  refine ⟨?_, by decide, by decide, by decide, by decide, by decide,
    by decide, by decide, by decide, by decide⟩
  intro response f1 s1 s2 s3 a b z hsplit ha hb hz
  have h1 : WhiteboxEZOApp.verify_ph_calibration response =
      WhiteboxEZOApp.show_calibration_verification [f1, s1, s2, s3] := by
    unfold WhiteboxEZOApp.verify_ph_calibration
    rw [hsplit]
  have h2 : WhiteboxEZOApp.show_calibration_verification [f1, s1, s2, s3] =
      some ⟨a, b, z,
        decide (95 ≤ a) && decide (a ≤ 105),
        decide (95 ≤ b) && decide (b ≤ 105),
        decide (-30 ≤ z) && decide (z ≤ 30),
        ((decide (95 ≤ a) && decide (a ≤ 105)) &&
          (decide (95 ≤ b) && decide (b ≤ 105))) &&
          (decide (-30 ≤ z) && decide (z ≤ 30))⟩ := by
    have h0 : WhiteboxEZOApp.show_calibration_verification [f1, s1, s2, s3] =
        (match pyFloat s1, pyFloat s2, pyFloat s3 with
          | some acid, some base, some zero =>
            let acidOk := decide (95 ≤ acid) && decide (acid ≤ 105)
            let baseOk := decide (95 ≤ base) && decide (base ≤ 105)
            let zeroOk := decide (-30 ≤ zero) && decide (zero ≤ 30)
            some ⟨acid, base, zero, acidOk, baseOk, zeroOk,
              acidOk && baseOk && zeroOk⟩
          | _, _, _ => none) := rfl
    rw [h0, ha, hb, hz]
  refine ⟨⟨a, b, z,
      decide (95 ≤ a) && decide (a ≤ 105),
      decide (95 ≤ b) && decide (b ≤ 105),
      decide (-30 ≤ z) && decide (z ≤ 30),
      ((decide (95 ≤ a) && decide (a ≤ 105)) &&
        (decide (95 ≤ b) && decide (b ≤ 105))) &&
        (decide (-30 ≤ z) && decide (z ≤ 30))⟩,
    by rw [h1, h2], rfl, rfl, rfl, ?_, ?_, ?_, ?_⟩
  · simp [Bool.and_eq_true, decide_eq_true_eq]
  · simp [Bool.and_eq_true, decide_eq_true_eq]
  · simp [Bool.and_eq_true, decide_eq_true_eq]
  · simp [Bool.and_eq_true, decide_eq_true_eq, and_assoc]

/-- C3 witness: the universal classification applied to the spec's
example response `"Slope,99.7,100.3,-0.89"`, each hypothesis discharged
by evaluation: the response splits into the four fields, the fields
parse to 99.7 / 100.3 / −0.89, and the produced record satisfies all
four classification equivalences. -/
theorem slope_verification_classification_witness :
    ∃ r : SlopeVerification,
      WhiteboxEZOApp.verify_ph_calibration "Slope,99.7,100.3,-0.89" = some r
      ∧ r.acid_slope = mkRat 997 10 ∧ r.base_slope = mkRat 1003 10
      ∧ r.zero_offset = mkRat (-89) 100
      ∧ (r.acid_ok = true ↔ (95 ≤ mkRat 997 10 ∧ mkRat 997 10 ≤ 105))
      ∧ (r.base_ok = true ↔ (95 ≤ mkRat 1003 10 ∧ mkRat 1003 10 ≤ 105))
      ∧ (r.zero_ok = true ↔ (-30 ≤ mkRat (-89) 100 ∧ mkRat (-89) 100 ≤ 30))
      ∧ (r.valid = true ↔
          ((95 ≤ mkRat 997 10 ∧ mkRat 997 10 ≤ 105)
            ∧ (95 ≤ mkRat 1003 10 ∧ mkRat 1003 10 ≤ 105)
            ∧ (-30 ≤ mkRat (-89) 100 ∧ mkRat (-89) 100 ≤ 30))) :=
  slope_verification_classification.1
    "Slope,99.7,100.3,-0.89" "Slope" "99.7" "100.3" "-0.89"
    (mkRat 997 10) (mkRat 1003 10) (mkRat (-89) 100)
    (by decide) (by decide) (by decide) (by decide)

/-! ## C2 — `!scan` response parsing -/

/-- A `':'`-line entry with an integer address and a two-word
description parses to a device record (no raised exception). -/
theorem parseScanEntry_of_ok (a b : List Char)
    (h1 : (pyInt (String.mk a)).isSome = true)
    (h2 : 2 ≤ (pySplitWS (pyStrip b)).length) :
    ∃ d, parseScanLine.parseScanEntry a b = some (some d) := by
  unfold parseScanLine.parseScanEntry
  cases hi : pyInt (String.mk a) with
  | none => rw [hi] at h1; simp at h1
  | some addr =>
    cases hw : (pySplitWS (pyStrip b)).get? 1 with
    | none =>
      have := List.get?_eq_none.mp hw
      omega
    | some ty => exact ⟨⟨addr, String.mk ty, String.mk (pyStrip b)⟩, rfl⟩

/-- When every line passes `scanLineOk`, the scan loop completes
without raising and produces exactly one record per `':'`-line. -/
theorem scanLines_of_ok (lines : List String)
    (h : lines.all (fun l => scanLineOk l.data) = true) :
    ∃ ds : List Device, scanLines lines = some ds ∧
      ds.length = (lines.filter (fun l => (splitOnce ':' l.data).isSome)).length := by
  induction lines with
  | nil => exact ⟨[], rfl, rfl⟩
  | cons l rest ih =>
    rw [List.all_cons, Bool.and_eq_true] at h
    obtain ⟨hl, hrest⟩ := h
    obtain ⟨ds, hds, hlen⟩ := ih hrest
    unfold scanLineOk at hl
    cases hs : splitOnce ':' l.data with
    | none =>
      have hp : parseScanLine l.data = some none := by
        unfold parseScanLine; rw [hs]
      refine ⟨ds, ?_, ?_⟩
      · show (match parseScanLine l.data with
          | none => none
          | some none => scanLines rest
          | some (some d) => (scanLines rest).map (d :: ·)) = some ds
        rw [hp]; exact hds
      · rw [List.filter_cons]
        simp [hs, hlen]
    | some p =>
      rw [hs] at hl
      rw [Bool.and_eq_true] at hl
      obtain ⟨h1, h2⟩ := hl
      obtain ⟨d, hd⟩ := parseScanEntry_of_ok p.1 p.2 h1 (of_decide_eq_true h2)
      have hp : parseScanLine l.data = some (some d) := by
        unfold parseScanLine; rw [hs]; exact hd
      refine ⟨d :: ds, ?_, ?_⟩
      · show (match parseScanLine l.data with
          | none => none
          | some none => scanLines rest
          | some (some d) => (scanLines rest).map (d :: ·)) = some (d :: ds)
        rw [hp, hds]; rfl
      · rw [List.filter_cons]
        simp [hs, hlen]

/-- C2 counterexample: lines the claim calls well-formed or malformed
both make `scan_devices` raise instead of being handled: `"99: pH"` is
a well-formed `"<integer address>: <description>"` line, yet the scan
raises `IndexError` (the one-word description has no second word to
take the type from) and yields no records; `"abc: EZO pH"` is a
malformed line that is not skipped — `int("abc")` raises `ValueError`.
`none` is the embedding of the propagated exception. -/
theorem scan_raises_on_valid_and_malformed_lines :
    DeviceManager.scan_devices (some "99: pH") = none
    ∧ DeviceManager.scan_devices (some "abc: EZO pH") = none := by
  refine ⟨by decide, by decide⟩

/-- C2 (amended): lines without `':'` are skipped; a `':'`-line parses
only when its first field is an integer and its stripped description
has at least two whitespace-separated words, in which case it yields a
record with that address, the description's second word as the probe
type, and the stripped description; when every `':'`-line is of that
form the scan returns exactly one record per `':'`-line.  A `':'`-line
violating the form makes the scan raise (first conjunct's hypothesis is
needed): the exception propagates out of `scan_devices`. -/
theorem scan_wellformed_lines_yield_records (lines : List String) :
    (lines.all (fun l => scanLineOk l.data) = true →
      ∃ ds : List Device, scanLines lines = some ds ∧
        ds.length =
          (lines.filter (fun l => (splitOnce ':' l.data).isSome)).length)
    ∧ DeviceManager.scan_devices (some "99: EZO pH\nnote line\n100: EZO EC") =
      some [⟨99, "pH", "EZO pH"⟩, ⟨100, "EC", "EZO EC"⟩] := by
  refine ⟨scanLines_of_ok lines, by decide⟩

/-- C2 witness: on a concrete response whose `':'`-lines are all
parsable, the scan succeeds with one record per `':'`-line. -/
theorem scan_wellformed_lines_yield_records_witness :
    ∃ ds : List Device,
      scanLines ["99: EZO pH", "note line", "100: EZO EC"] = some ds ∧
      ds.length =
        ((["99: EZO pH", "note line", "100: EZO EC"] : List String).filter
          (fun l => (splitOnce ':' l.data).isSome)).length :=
  (scan_wellformed_lines_yield_records
    ["99: EZO pH", "note line", "100: EZO EC"]).1 (by decide)

/-! ## C1 — concurrent sends on one handle -/

/-- The overlapped schedule is a genuine interleaving of the two
`send_command` executions. -/
theorem overlappedSchedule_interleave :
    Interleave (sendActs 0 "R") (sendActs 1 "Cal,mid,7.00")
      overlappedSchedule :=
  Interleave.left (Interleave.right (Interleave.left (Interleave.right
    (Interleave.left (Interleave.right Interleave.nil)))))

/-- C1 counterexample: two concurrent `send_command` executions on the
same handle need not serialize: `overlappedSchedule` interleaves the
two executions (thread 1's write lands between thread 0's write and
read, so both commands are in flight at once), it violates no lock
discipline — the embedded `send_command` body contains no lock
operation at all — and it is not a serialization of the two calls. -/
theorem concurrent_sends_not_serialized :
    Interleave (sendActs 0 "R") (sendActs 1 "Cal,mid,7.00")
      overlappedSchedule
    ∧ lockOk none overlappedSchedule = true
    ∧ ¬ Serializes (sendActs 0 "R") (sendActs 1 "Cal,mid,7.00")
      overlappedSchedule :=
  ⟨overlappedSchedule_interleave, by decide, by unfold Serializes; decide⟩

/-- C1 (amended): `send_command` performs no lock acquisition or
release — every transport action of a send is a plain write / sleep /
read — so nothing enforces mutual exclusion: there are lock-admissible
interleavings of two concurrent sends on one handle in which both
commands are in flight simultaneously and the executions do not
serialize.  (Each single `ser.write` call does emit its command's
framed bytes as one atomic action of the model.) -/
theorem sends_take_no_lock_and_may_overlap :
    (∀ tid : Nat, ∀ cmd : String,
      (sendActs tid cmd).all (fun a => !a.isLockOp) = true)
    ∧ (∃ zs : List Act,
        Interleave (sendActs 0 "R") (sendActs 1 "Cal,mid,7.00") zs
        ∧ lockOk none zs = true
        ∧ ¬ Serializes (sendActs 0 "R") (sendActs 1 "Cal,mid,7.00") zs) := by
  constructor
  · intro tid cmd
    rfl
  · exact ⟨overlappedSchedule, overlappedSchedule_interleave,
      by decide, by unfold Serializes; decide⟩

/-! ## C10 — switching a device to I2C mode -/

/-- C10 counterexample: for an in-range address that is already in use,
`switch_to_i2c` does return `False` and does not write the `i2c`
command — but it does write bytes to the serial connection: the
in-use check itself sends `"!scan\r"` before the method bails out, so
"writes no bytes … whenever the address is already in use" fails. -/
theorem switch_to_i2c_writes_scan_when_in_use :
    ProtocolManager.switch_to_i2c true ⟨"100: EZO EC", none⟩ 100 =
      (false, ["!scan\r"])
    ∧ (ProtocolManager.switch_to_i2c true ⟨"100: EZO EC", none⟩ 100).2 ≠ [] := by
  refine ⟨by decide, by decide⟩

/-- C10 (amended): `switch_to_i2c` returns `False` writing nothing when
the address is outside 1..127 (the range check precedes any I/O); for
an in-range address already in use it returns `False` after writing
only the `"!scan\r"` probe of the in-use check; otherwise it writes the
scan probe and then `i2c,<address>\r` — the `i2c` command is written
only for in-range, unused addresses — and returns `True` exactly when
a response line arrived and contains `"SUCCESS"`. -/
theorem switch_to_i2c_cases (conn : Bool) (bus : ProtocolBus) (addr : Int) :
    (¬ (1 ≤ addr ∧ addr ≤ 127) →
      ProtocolManager.switch_to_i2c conn bus addr = (false, []))
    ∧ (1 ≤ addr → addr ≤ 127 →
        ProtocolManager.is_address_in_use bus addr = true →
        ProtocolManager.switch_to_i2c true bus addr = (false, ["!scan\r"]))
    ∧ (1 ≤ addr → addr ≤ 127 →
        ProtocolManager.is_address_in_use bus addr = false →
        (ProtocolManager.switch_to_i2c true bus addr).2 =
          ["!scan\r", "i2c," ++ toString addr ++ "\r"]
        ∧ ((ProtocolManager.switch_to_i2c true bus addr).1 = true ↔
            ∃ r, bus.i2cResp = some r ∧ r ≠ "" ∧ pyInStr "SUCCESS" r = true)) := by
  refine ⟨?_, ?_, ?_⟩
  · intro h
    have : (decide (1 ≤ addr) && decide (addr ≤ 127)) = false := by
      rcases not_and_or.mp h with h' | h'
      · simp [decide_eq_false h']
      · simp [decide_eq_false h']
    cases conn with
    | false => rfl
    | true => simp [ProtocolManager.switch_to_i2c, this]
  · intro h1 h2 hu
    simp [ProtocolManager.switch_to_i2c, decide_eq_true h1, decide_eq_true h2, hu]
  · intro h1 h2 hu
    cases hr : bus.i2cResp with
    | none =>
      constructor
      · simp [ProtocolManager.switch_to_i2c, decide_eq_true h1,
          decide_eq_true h2, hu, hr]
      · simp [ProtocolManager.switch_to_i2c, decide_eq_true h1,
          decide_eq_true h2, hu, hr]
    | some r =>
      constructor
      · simp [ProtocolManager.switch_to_i2c, decide_eq_true h1,
          decide_eq_true h2, hu, hr]
      · simp [ProtocolManager.switch_to_i2c, decide_eq_true h1,
          decide_eq_true h2, hu, hr]

/-- C10 witness: address 200 is rejected with nothing written; in-use
address 100 returns `False` having written only the scan probe; unused
address 55 writes the scan probe and `i2c,55\r` and succeeds on a
`"SUCCESS"`-bearing response. -/
theorem switch_to_i2c_cases_witness :
    ProtocolManager.switch_to_i2c true ⟨"100: EZO EC", none⟩ 200 = (false, [])
    ∧ ProtocolManager.switch_to_i2c true ⟨"100: EZO EC", none⟩ 100 =
      (false, ["!scan\r"])
    ∧ (ProtocolManager.switch_to_i2c true
        ⟨"100: EZO EC", some "SUCCESS: protocol changed"⟩ 55).2 =
      ["!scan\r", "i2c," ++ toString (55 : Int) ++ "\r"]
    ∧ (ProtocolManager.switch_to_i2c true
        ⟨"100: EZO EC", some "SUCCESS: protocol changed"⟩ 55).1 = true :=
  ⟨(switch_to_i2c_cases true ⟨"100: EZO EC", none⟩ 200).1 (by decide),
   (switch_to_i2c_cases true ⟨"100: EZO EC", none⟩ 100).2.1
     (by decide) (by decide) (by decide),
   ((switch_to_i2c_cases true
       ⟨"100: EZO EC", some "SUCCESS: protocol changed"⟩ 55).2.2
     (by decide) (by decide) (by decide)).1,
   (((switch_to_i2c_cases true
       ⟨"100: EZO EC", some "SUCCESS: protocol changed"⟩ 55).2.2
     (by decide) (by decide) (by decide)).2).mpr
     ⟨"SUCCESS: protocol changed", rfl, by decide, by decide⟩⟩

end CalProcess
